import Mathlib

/-!
Shallow embedding of the Stripe webhook core of nexus-membership-bot
(src/server.js, canonical variant: the `/stripe-webhook` route together with
its helpers `sendInvite`, `kickFromGroup`, `getTierFromPrice` and
`fetchSubscription`).

Modelling conventions:
* JavaScript values that may be `undefined` become `Option String`; the
  JS truthiness test on such a value (`if (x)`) is `jsTruthyStr`, which is
  false for `undefined` and for the empty string.
* `===` between two possibly-undefined strings is `Option.beq`
  (`undefined === undefined` is true, matching JS strict equality).
* Outbound Telegram calls are recorded in a trace; the outcome of the
  n-th call is supplied by an oracle so that theorems quantify over every
  behaviour of the messaging platform, including thrown transport errors
  (a rejected `fetch`) and failure responses (no `invite_link` in the body).
* The Stripe subscription retrieval is supplied by a `backend` function
  from subscription ids to outcomes (found object or thrown error).
* Signature verification (`stripe.webhooks.constructEvent`) is a payment
  provider primitive, so its outcome is an input of the handler: either a
  parsed event or a signature error.
-/

namespace NexusBot

/-- JS truthiness of a possibly-undefined string: `undefined` and `""` are
falsy, every other string is truthy. -/
def jsTruthyStr : Option String → Bool
  | none => false
  | some s => !(s == "")

/-- JS `a || b` on possibly-undefined strings: the first operand when it is
truthy, otherwise the second. -/
def jsOr (a b : Option String) : Option String :=
  if jsTruthyStr a then a else b

/-- JS `x || d` with a plain-string default, as in the renewal log line. -/
def jsOrDefault (x : Option String) (d : String) : String :=
  if jsTruthyStr x then x.getD d else d

/-- Raw process environment, before the startup guards run
(src/server.js lines 226-235): every variable may be absent. -/
structure Env where
  stripeSecretKey : Option String
  stripeWebhookSecret : Option String
  telegramBotToken : Option String
  groupChatId : Option String
  premiumPriceId : Option String
  genericPriceId : Option String
deriving Repr, DecidableEq

/-- Configuration reaching the webhook handler after startup: the four
critical variables are present, the two price ids stay optional
(src/server.js only warns when they are missing). -/
structure Config where
  groupChatId : String
  premiumPriceId : Option String
  genericPriceId : Option String
deriving Repr, DecidableEq

/-- Log levels of the console calls in the handler. -/
inductive LogLevel where
  | info
  | warn
  | error
deriving Repr, DecidableEq, BEq

/-- One console log record. -/
structure LogEntry where
  level : LogLevel
  text : String
deriving Repr, DecidableEq

/-- Startup guard block (src/server.js lines 238-243): throw on a missing
critical variable, only warn on a missing price id.  Result is the error
message thrown, or the configuration plus the warning log. -/
def startupGuards (e : Env) : Except String (Config × List LogEntry) :=
  if !(jsTruthyStr e.stripeSecretKey) then .error "Missing STRIPE_SECRET_KEY"
  else if !(jsTruthyStr e.stripeWebhookSecret) then .error "Missing STRIPE_WEBHOOK_SECRET"
  else if !(jsTruthyStr e.telegramBotToken) then .error "Missing TELEGRAM_BOT_TOKEN"
  else if !(jsTruthyStr e.groupChatId) then .error "Missing GROUP_CHAT_ID"
  else
    let warns :=
      (if !(jsTruthyStr e.premiumPriceId) then [LogEntry.mk .warn "Missing PREMIUM_PRICE_ID"] else [])
      ++ (if !(jsTruthyStr e.genericPriceId) then [LogEntry.mk .warn "Missing GENERIC_PRICE_ID"] else [])
    .ok (⟨e.groupChatId.getD "", e.premiumPriceId, e.genericPriceId⟩, warns)

/-- Plan Classifier (src/server.js lines 304-308).  The comparisons are JS
strict equality between the possibly-undefined query and the
possibly-undefined configured ids, so `none == none` is true. -/
def getTierFromPrice (cfg : Config) (priceId : Option String) : String :=
  if priceId == cfg.premiumPriceId then "Premium Plan (€24.99/month)"
  else if priceId == cfg.genericPriceId then "Generic Plan (€9.99/month)"
  else "Membership"

/-- Fields of `event.data.object` that the handler reads, all optional as
in the loosely structured upstream JSON: the `metadata.telegram_id` custom
field (read off sessions, invoices and subscription objects alike) and the
linked subscription id (`session.subscription` / `invoice.subscription`). -/
structure StripeObject where
  metadataTelegramId : Option String
  subscriptionId : Option String
deriving Repr, DecidableEq

/-- A parsed Stripe event as delivered to the switch: its `type` string and
its `data.object`. -/
structure StripeEvent where
  type : String
  obj : StripeObject
deriving Repr, DecidableEq

/-- Result of `stripe.webhooks.constructEvent`: either a verified parsed
event, or the signature verification error it threw. -/
inductive VerifyOutcome where
  | verified (ev : StripeEvent)
  | sigError (msg : String)
deriving Repr, DecidableEq

/-- The subscription object returned by `stripe.subscriptions.retrieve`,
projected to the fields the handler reads: `metadata.telegram_id` and the
first line-item price id (`sub.items.data[0].price.id`). -/
structure SubData where
  metadataTelegramId : Option String
  firstPriceId : Option String
deriving Repr, DecidableEq

/-- Outcome of one `stripe.subscriptions.retrieve` call: the object, or a
thrown error (caught inside `fetchSubscription`). -/
inductive SubFetchOutcome where
  | found (s : SubData)
  | failure
deriving Repr, DecidableEq

/-- One outbound Telegram Bot API call, with the request fields the code
sends. -/
inductive TgCall where
  | createChatInviteLink (chatId : String) (memberLimit : Nat) (expireDate : Nat)
  | sendMessage (chatId : String) (text : String)
  | banChatMember (chatId : String) (userId : String)
  | unbanChatMember (chatId : String) (userId : String)
deriving Repr, DecidableEq

/-- Outcome of one Telegram call as observed by the code: `throws` is a
rejected `fetch` (transport error); otherwise the platform answered, with
`ok` the answer flag (never read by the canonical code) and `inviteLink`
the `result.invite_link` field of the answer, absent on failure answers. -/
structure TgOutcome where
  throws : Bool
  ok : Bool
  inviteLink : Option String
deriving Repr, DecidableEq

/-- The outcome of the n-th Telegram call of a request, counting from 0. -/
def TgOracle := Nat → TgOutcome

/-- Side effects accumulated by one webhook request: the Telegram call
trace, the subscription ids retrieved from Stripe, and console logs. -/
structure Effects where
  tgCalls : List TgCall
  subFetches : List String
  logs : List LogEntry
deriving Repr, DecidableEq

/-- The empty effect trace at the start of a request. -/
def Effects.empty : Effects := ⟨[], [], []⟩

/-- Append a log entry. -/
def Effects.log (eff : Effects) (lv : LogLevel) (t : String) : Effects :=
  { eff with logs := eff.logs ++ [⟨lv, t⟩] }

/-- Record one Telegram call and look up its outcome: the n-th call of the
request gets the oracle value at n. -/
def Effects.tgFetch (eff : Effects) (oracle : TgOracle) (c : TgCall) :
    Effects × TgOutcome :=
  ({ eff with tgCalls := eff.tgCalls ++ [c] }, oracle eff.tgCalls.length)

/-- The invite direct message text (src/server.js line 278). -/
def inviteMessageText (tierLabel invite : String) : String :=
  "✅ " ++ tierLabel ++ " activated.\nJoin the group: " ++ invite ++
    "\n\n*Reminder:* digital membership; does not guarantee employment."

/-- Helper `sendInvite` (src/server.js lines 254-285): create a single-use
invite link for the configured group expiring in 1800 s, then, when the
platform returned a truthy link, send it by direct message; every thrown
error is caught and logged, a failure answer only logs. -/
def sendInvite (cfg : Config) (now : Nat) (oracle : TgOracle) (eff : Effects)
    (telegramId tierLabel : String) : Effects :=
  let (eff1, r) := eff.tgFetch oracle
    (.createChatInviteLink cfg.groupChatId 1 (now + 1800))
  if r.throws then eff1.log .error "Telegram sendInvite error"
  else if jsTruthyStr r.inviteLink then
    let invite := r.inviteLink.getD ""
    let (eff2, r2) := eff1.tgFetch oracle
      (.sendMessage telegramId (inviteMessageText tierLabel invite))
    if r2.throws then eff2.log .error "Telegram sendInvite error" else eff2
  else eff1.log .error "No invite_link from Telegram"

/-- Helper `kickFromGroup` (src/server.js lines 287-302): ban then unban
the member in the configured group; the answers are never inspected, and a
thrown error is caught and logged (a throw on the ban skips the unban). -/
def kickFromGroup (cfg : Config) (oracle : TgOracle) (eff : Effects)
    (telegramId : String) : Effects :=
  let (eff1, r) := eff.tgFetch oracle (.banChatMember cfg.groupChatId telegramId)
  if r.throws then eff1.log .error "Telegram kick error"
  else
    let (eff2, r2) := eff1.tgFetch oracle (.unbanChatMember cfg.groupChatId telegramId)
    if r2.throws then eff2.log .error "Telegram kick error" else eff2

/-- Helper `fetchSubscription` (src/server.js lines 310-319): null on a
falsy id, otherwise retrieve the subscription, catching a thrown Stripe
error into a log line and a null result. -/
def fetchSubscription (backend : String → SubFetchOutcome) (eff : Effects)
    (subId : Option String) : Effects × Option SubData :=
  if jsTruthyStr subId then
    let id := subId.getD ""
    let eff1 := { eff with subFetches := eff.subFetches ++ [id] }
    match backend id with
    | .found s => (eff1, some s)
    | .failure => (eff1.log .error "Stripe fetchSubscription error", none)
  else (eff, none)

/-- Result of one webhook request: the HTTP status sent and the side
effects performed. -/
structure HandlerResult where
  status : Nat
  eff : Effects
deriving Repr, DecidableEq

/-- The event switch of the verified branch (src/server.js lines 336-373).
Every await inside it (`fetchSubscription`, `sendInvite`, `kickFromGroup`)
catches its own thrown errors, so the switch itself never throws and the
outer catch that would answer 500 (lines 377-379) is unreachable; the
dispatch is therefore total. -/
def dispatchEvent (cfg : Config) (now : Nat) (backend : String → SubFetchOutcome)
    (oracle : TgOracle) (ev : StripeEvent) : Effects :=
  if ev.type == "checkout.session.completed" then
    let telegramId := ev.obj.metadataTelegramId
    let (eff1, sub) := fetchSubscription backend Effects.empty ev.obj.subscriptionId
    let priceId := sub.bind SubData.firstPriceId
    let tierLabel := getTierFromPrice cfg priceId
    if jsTruthyStr telegramId then
      sendInvite cfg now oracle eff1 (telegramId.getD "") tierLabel
    else eff1.log .warn "No telegram_id in session.metadata"
  else if ev.type == "invoice.payment_succeeded" then
    let (eff1, sub) := fetchSubscription backend Effects.empty ev.obj.subscriptionId
    let telegramId := jsOr (sub.bind SubData.metadataTelegramId) ev.obj.metadataTelegramId
    let priceId := sub.bind SubData.firstPriceId
    let tierLabel := getTierFromPrice cfg priceId
    eff1.log .info ("Renewal OK → tg:" ++ jsOrDefault telegramId "-" ++ " | " ++ tierLabel)
  else if ev.type == "customer.subscription.deleted" then
    let telegramId := ev.obj.metadataTelegramId
    if jsTruthyStr telegramId then
      kickFromGroup cfg oracle Effects.empty (telegramId.getD "")
    else Effects.empty.log .warn "No telegram_id on subscription.metadata (delete)"
  else Effects.empty.log .info ("Unhandled event: " ++ ev.type)

/-- The `/stripe-webhook` route (src/server.js lines 325-380): on a
signature error answer 400 without touching any platform; on a verified
event run the switch and answer 200 with the acknowledgment body. -/
def stripeWebhook (cfg : Config) (now : Nat) (backend : String → SubFetchOutcome)
    (oracle : TgOracle) (v : VerifyOutcome) : HandlerResult :=
  match v with
  | .sigError msg =>
      ⟨400, Effects.empty.log .error ("Webhook signature verification failed: " ++ msg)⟩
  | .verified ev => ⟨200, dispatchEvent cfg now backend oracle ev⟩

/-- Identity resolution order for an initial purchase as the specification
words it (section 4.2): first the session metadata custom field; if that is
absent and the session references a subscription, fetch it and read its
custom field.  Stated for comparison with the implemented handler, which
reads only the session metadata. -/
def specCheckoutIdentity (backend : String → SubFetchOutcome)
    (obj : StripeObject) : Option String :=
  if jsTruthyStr obj.metadataTelegramId then obj.metadataTelegramId
  else if jsTruthyStr obj.subscriptionId then
    match backend (obj.subscriptionId.getD "") with
    | .found s => if jsTruthyStr s.metadataTelegramId then s.metadataTelegramId else none
    | .failure => none
  else none

/-- The price view of a subscription-retrieve outcome: whether the call
succeeds and, when it does, the first line-item price id.  Two backends
with the same price view are indistinguishable to the checkout branch. -/
def priceView : SubFetchOutcome → Option (Option String)
  | .found s => some s.firstPriceId
  | .failure => none

/-! Helper lemmas shared by the claim theorems. -/

theorem jsTruthyStr_none : jsTruthyStr none = false := rfl

theorem Effects.log_tgCalls (eff : Effects) (lv : LogLevel) (t : String) :
    (eff.log lv t).tgCalls = eff.tgCalls := rfl

theorem Effects.log_subFetches (eff : Effects) (lv : LogLevel) (t : String) :
    (eff.log lv t).subFetches = eff.subFetches := rfl

theorem fetchSubscription_fst_tgCalls (backend : String → SubFetchOutcome)
    (eff : Effects) (subId : Option String) :
    ((fetchSubscription backend eff subId).1).tgCalls = eff.tgCalls := by
  unfold fetchSubscription
  split
  · cases hb : backend (subId.getD "") <;> simp [hb, Effects.log]
  · rfl

theorem sendInvite_trace (cfg : Config) (now : Nat) (oracle : TgOracle)
    (eff : Effects) (tid tier link : String) (h0 : eff.tgCalls = [])
    (hthrow : (oracle 0).throws = false)
    (hlink : (oracle 0).inviteLink = some link) (hlink' : link ≠ "") :
    (sendInvite cfg now oracle eff tid tier).tgCalls =
      [TgCall.createChatInviteLink cfg.groupChatId 1 (now + 1800),
       TgCall.sendMessage tid (inviteMessageText tier link)] := by
  unfold sendInvite Effects.tgFetch
  simp only [h0, List.length_nil, List.nil_append, hthrow, Bool.false_eq_true,
    if_false, hlink, jsTruthyStr, Option.getD_some]
  have : (link == "") = false := by simpa using hlink'
  simp only [this, Bool.not_false, if_true, List.length_cons, List.length_nil]
  split <;> simp [Effects.log]

theorem kickFromGroup_trace (cfg : Config) (oracle : TgOracle)
    (eff : Effects) (tid : String) (h0 : eff.tgCalls = [])
    (hthrow : (oracle 0).throws = false) :
    (kickFromGroup cfg oracle eff tid).tgCalls =
      [TgCall.banChatMember cfg.groupChatId tid,
       TgCall.unbanChatMember cfg.groupChatId tid] := by
  unfold kickFromGroup Effects.tgFetch
  simp only [h0, List.length_nil, List.nil_append, hthrow, Bool.false_eq_true,
    if_false, List.length_cons]
  split <;> simp [Effects.log]

/-! Theorems settling the claims. -/

/-- C1: a webhook request whose signature does not verify is answered with
status 400 and drives nothing: no Telegram call and no Stripe subscription
retrieval happen, so neither the identity resolver nor the classifier nor
the membership action executor run. -/
theorem c1_invalid_signature_rejected (cfg : Config) (now : Nat)
    (backend : String → SubFetchOutcome) (oracle : TgOracle) (msg : String) :
    (stripeWebhook cfg now backend oracle (.sigError msg)).status = 400 ∧
    (stripeWebhook cfg now backend oracle (.sigError msg)).eff.tgCalls = [] ∧
    (stripeWebhook cfg now backend oracle (.sigError msg)).eff.subFetches = [] :=
  ⟨rfl, rfl, rfl⟩

/-- C2: every event that passed signature verification is acknowledged with
status 200, whatever the Stripe backend and the Telegram platform do
(success, failure answer, or thrown transport error): each downstream
helper absorbs its own errors, so no downstream outcome reaches the
response. -/
theorem c2_verified_always_acknowledged (cfg : Config) (now : Nat)
    (backend : String → SubFetchOutcome) (oracle : TgOracle) (ev : StripeEvent) :
    (stripeWebhook cfg now backend oracle (.verified ev)).status = 200 := rfl

/-- C3: a verified `checkout.session.completed` event whose session
metadata carries a truthy subscriber identity makes exactly one invite-link
creation call with the configured group as chat id, member limit 1 and
expiry now + 1800 s, and — the platform having answered with a link —
exactly one direct-message call to that identity whose text contains the
resolved tier label and the invite URL; the response status is 200. -/
theorem c3_checkout_completed_invite (cfg : Config) (now : Nat)
    (backend : String → SubFetchOutcome) (oracle : TgOracle)
    (obj : StripeObject) (tid link : String)
    (htid : obj.metadataTelegramId = some tid) (htid' : tid ≠ "")
    (hthrow : (oracle 0).throws = false)
    (hlink : (oracle 0).inviteLink = some link) (hlink' : link ≠ "") :
    (stripeWebhook cfg now backend oracle
        (.verified ⟨"checkout.session.completed", obj⟩)).status = 200 ∧
    (stripeWebhook cfg now backend oracle
        (.verified ⟨"checkout.session.completed", obj⟩)).eff.tgCalls =
      [TgCall.createChatInviteLink cfg.groupChatId 1 (now + 1800),
       TgCall.sendMessage tid
         (inviteMessageText
           (getTierFromPrice cfg
             ((fetchSubscription backend Effects.empty obj.subscriptionId).2.bind
               SubData.firstPriceId))
           link)] ∧
    (∀ tier invite : String,
      (∃ a b, inviteMessageText tier invite = a ++ tier ++ b) ∧
      (∃ a b, inviteMessageText tier invite = a ++ invite ++ b)) := by
  refine ⟨rfl, ?_, ?_⟩
  · have hfs := fetchSubscription_fst_tgCalls backend Effects.empty obj.subscriptionId
    rcases hsplit : fetchSubscription backend Effects.empty obj.subscriptionId with ⟨eff1, sub⟩
    rw [hsplit] at hfs
    have htr : jsTruthyStr (some tid) = true := by
      simp [jsTruthyStr, htid']
    simp only [stripeWebhook, dispatchEvent, beq_self_eq_true, if_true, hsplit, htid, htr,
      Option.getD_some]
    exact sendInvite_trace cfg now oracle eff1 tid _ link hfs hthrow hlink hlink'
  · intro tier invite
    constructor
    · refine ⟨"✅ ", " activated.\nJoin the group: " ++ invite ++
        "\n\n*Reminder:* digital membership; does not guarantee employment.", ?_⟩
      simp [inviteMessageText, String.append_assoc]
    · refine ⟨"✅ " ++ tier ++ " activated.\nJoin the group: ",
        "\n\n*Reminder:* digital membership; does not guarantee employment.", ?_⟩
      simp [inviteMessageText, String.append_assoc]

/-- Witness for C3: the spec scenario, identity 12345, premium price. -/
theorem c3_checkout_completed_invite_witness :
    (some "12345" : Option String) = some "12345" ∧
    (stripeWebhook ⟨"-1003037084693", some "price_p", some "price_g"⟩ 1000
        (fun id => if id == "sub_1" then .found ⟨some "99", some "price_p"⟩ else .failure)
        (fun _ => ⟨false, true, some "https://t.me/+abc"⟩)
        (.verified ⟨"checkout.session.completed", ⟨some "12345", some "sub_1"⟩⟩)).eff.tgCalls =
      [TgCall.createChatInviteLink "-1003037084693" 1 2800,
       TgCall.sendMessage "12345"
         (inviteMessageText "Premium Plan (€24.99/month)" "https://t.me/+abc")] := by
  have h := c3_checkout_completed_invite
    ⟨"-1003037084693", some "price_p", some "price_g"⟩ 1000
    (fun id => if id == "sub_1" then .found ⟨some "99", some "price_p"⟩ else .failure)
    (fun _ => ⟨false, true, some "https://t.me/+abc"⟩)
    ⟨some "12345", some "sub_1"⟩ "12345" "https://t.me/+abc"
    rfl (by decide) rfl rfl (by decide)
  exact ⟨rfl, by rw [h.2.1]; rfl⟩

/-- C4: a verified `customer.subscription.deleted` event whose subscription
metadata carries a truthy subscriber identity makes exactly one ban call
immediately followed by exactly one unban call, both for the configured
group and that member; the unban is attempted whatever the ban call
answers, failure reports included, since the answer is never inspected;
the response status is 200. -/
theorem c4_subscription_deleted_kick (cfg : Config) (now : Nat)
    (backend : String → SubFetchOutcome) (oracle : TgOracle)
    (obj : StripeObject) (tid : String)
    (htid : obj.metadataTelegramId = some tid) (htid' : tid ≠ "")
    (hthrow : (oracle 0).throws = false) :
    (stripeWebhook cfg now backend oracle
        (.verified ⟨"customer.subscription.deleted", obj⟩)).status = 200 ∧
    (stripeWebhook cfg now backend oracle
        (.verified ⟨"customer.subscription.deleted", obj⟩)).eff.tgCalls =
      [TgCall.banChatMember cfg.groupChatId tid,
       TgCall.unbanChatMember cfg.groupChatId tid] := by
  refine ⟨rfl, ?_⟩
  have htr : jsTruthyStr (some tid) = true := by
    simp [jsTruthyStr, htid']
  simp only [stripeWebhook, dispatchEvent, String.reduceBEq, reduceIte, htid, htr, if_true,
    Option.getD_some]
  exact kickFromGroup_trace cfg oracle Effects.empty tid rfl hthrow

/-- Witness for C4: member 67890, with the ban call answering a failure
report (ok false); the unban call is still in the trace. -/
theorem c4_subscription_deleted_kick_witness :
    (stripeWebhook ⟨"-1003037084693", some "price_p", some "price_g"⟩ 1000
        (fun _ => .failure) (fun _ => ⟨false, false, none⟩)
        (.verified ⟨"customer.subscription.deleted", ⟨some "67890", none⟩⟩)).status = 200 ∧
    (stripeWebhook ⟨"-1003037084693", some "price_p", some "price_g"⟩ 1000
        (fun _ => .failure) (fun _ => ⟨false, false, none⟩)
        (.verified ⟨"customer.subscription.deleted", ⟨some "67890", none⟩⟩)).eff.tgCalls =
      [TgCall.banChatMember "-1003037084693" "67890",
       TgCall.unbanChatMember "-1003037084693" "67890"] :=
  c4_subscription_deleted_kick _ _ _ _ _ "67890" rfl (by decide) rfl

/-- C5: a verified event of one of the two action-driving kinds whose
object carries no truthy identity — and whose linked subscription, the only
other source, carries none either — logs a warning, makes no Telegram call
at all, and is still acknowledged with status 200. -/
theorem c5_no_identity_skips_action (cfg : Config) (now : Nat)
    (backend : String → SubFetchOutcome) (oracle : TgOracle)
    (kind : String) (obj : StripeObject)
    (hkind : kind = "checkout.session.completed" ∨
             kind = "customer.subscription.deleted")
    (hid : jsTruthyStr obj.metadataTelegramId = false)
    (_hsub : ∀ id s, backend id = .found s →
      jsTruthyStr s.metadataTelegramId = false) :
    (stripeWebhook cfg now backend oracle (.verified ⟨kind, obj⟩)).status = 200 ∧
    (stripeWebhook cfg now backend oracle (.verified ⟨kind, obj⟩)).eff.tgCalls = [] ∧
    ∃ e ∈ (stripeWebhook cfg now backend oracle (.verified ⟨kind, obj⟩)).eff.logs,
      e.level = LogLevel.warn := by
  rcases hkind with hk | hk
  · subst hk
    have hfs := fetchSubscription_fst_tgCalls backend Effects.empty obj.subscriptionId
    rcases hsplit : fetchSubscription backend Effects.empty obj.subscriptionId with ⟨eff1, sub⟩
    rw [hsplit] at hfs
    refine ⟨rfl, ?_, ?_⟩
    · simp only [stripeWebhook, dispatchEvent, beq_self_eq_true, if_true, hsplit, hid,
        Bool.false_eq_true, if_false, Effects.log]
      exact hfs
    · simp only [stripeWebhook, dispatchEvent, beq_self_eq_true, if_true, hsplit, hid,
        Bool.false_eq_true, if_false, Effects.log]
      exact ⟨⟨.warn, "No telegram_id in session.metadata"⟩, by simp, rfl⟩
  · subst hk
    refine ⟨rfl, ?_, ?_⟩
    · simp only [stripeWebhook, dispatchEvent, hid, Bool.false_eq_true, if_false,
        Effects.log, Effects.empty, String.reduceBEq, reduceIte]
    · simp only [stripeWebhook, dispatchEvent, hid, Bool.false_eq_true, if_false,
        Effects.log, Effects.empty, String.reduceBEq, reduceIte]
      exact ⟨⟨.warn, "No telegram_id on subscription.metadata (delete)"⟩, by simp, rfl⟩

/-- Witness for C5: a checkout event with no identity in any source. -/
theorem c5_no_identity_skips_action_witness :
    (stripeWebhook ⟨"-1003037084693", some "price_p", some "price_g"⟩ 1000
        (fun _ => .failure) (fun _ => ⟨false, true, some "https://t.me/+abc"⟩)
        (.verified ⟨"checkout.session.completed", ⟨none, some "sub_1"⟩⟩)).status = 200 ∧
    (stripeWebhook ⟨"-1003037084693", some "price_p", some "price_g"⟩ 1000
        (fun _ => .failure) (fun _ => ⟨false, true, some "https://t.me/+abc"⟩)
        (.verified ⟨"checkout.session.completed", ⟨none, some "sub_1"⟩⟩)).eff.tgCalls = [] ∧
    ∃ e ∈ (stripeWebhook ⟨"-1003037084693", some "price_p", some "price_g"⟩ 1000
        (fun _ => .failure) (fun _ => ⟨false, true, some "https://t.me/+abc"⟩)
        (.verified ⟨"checkout.session.completed", ⟨none, some "sub_1"⟩⟩)).eff.logs,
      e.level = LogLevel.warn :=
  c5_no_identity_skips_action _ _ _ _ _ _ (Or.inl rfl) rfl
    (fun _ _ h => nomatch h)

/-- C6: the plan classifier is a total pure function; with both price ids
configured and distinct, it maps the premium id to the premium label, the
generic id to the generic label, and every other query, the absent one
included, to the fallback label. -/
theorem c6_plan_classifier_total (cfg : Config) (p g : String)
    (hp : cfg.premiumPriceId = some p) (hg : cfg.genericPriceId = some g)
    (hne : p ≠ g) :
    getTierFromPrice cfg (some p) = "Premium Plan (€24.99/month)" ∧
    getTierFromPrice cfg (some g) = "Generic Plan (€9.99/month)" ∧
    ∀ q : Option String, q ≠ some p → q ≠ some g →
      getTierFromPrice cfg q = "Membership" := by
  refine ⟨?_, ?_, ?_⟩
  · simp [getTierFromPrice, hp]
  · simp [getTierFromPrice, hp, hg, Ne.symm hne]
  · intro q hq1 hq2
    simp [getTierFromPrice, hp, hg, hq1, hq2]

/-- Witness for C6 at a concrete configuration. -/
theorem c6_plan_classifier_total_witness :
    getTierFromPrice ⟨"-1003037084693", some "price_p", some "price_g"⟩ (some "price_p") =
      "Premium Plan (€24.99/month)" ∧
    getTierFromPrice ⟨"-1003037084693", some "price_p", some "price_g"⟩ none =
      "Membership" :=
  ⟨(c6_plan_classifier_total _ "price_p" "price_g" rfl rfl (by decide)).1,
   (c6_plan_classifier_total _ "price_p" "price_g" rfl rfl (by decide)).2.2 none
     (by decide) (by decide)⟩

/-- C9: a verified event of an unrecognized kind performs no action at all:
no Telegram call, no Stripe retrieval, and the request is acknowledged with
status 200. -/
theorem c9_unknown_kind_acknowledged (cfg : Config) (now : Nat)
    (backend : String → SubFetchOutcome) (oracle : TgOracle) (ev : StripeEvent)
    (h1 : ev.type ≠ "checkout.session.completed")
    (h2 : ev.type ≠ "invoice.payment_succeeded")
    (h3 : ev.type ≠ "customer.subscription.deleted") :
    (stripeWebhook cfg now backend oracle (.verified ev)).status = 200 ∧
    (stripeWebhook cfg now backend oracle (.verified ev)).eff.tgCalls = [] ∧
    (stripeWebhook cfg now backend oracle (.verified ev)).eff.subFetches = [] := by
  refine ⟨rfl, ?_, ?_⟩ <;>
    simp [stripeWebhook, dispatchEvent, h1, h2, h3, Effects.log, Effects.empty]

/-- Witness for C9 on the `customer.updated` scenario of the spec. -/
theorem c9_unknown_kind_acknowledged_witness :
    (stripeWebhook ⟨"-1003037084693", some "price_p", some "price_g"⟩ 1000
        (fun _ => .failure) (fun _ => ⟨false, true, none⟩)
        (.verified ⟨"customer.updated", ⟨some "12345", none⟩⟩)).status = 200 ∧
    (stripeWebhook ⟨"-1003037084693", some "price_p", some "price_g"⟩ 1000
        (fun _ => .failure) (fun _ => ⟨false, true, none⟩)
        (.verified ⟨"customer.updated", ⟨some "12345", none⟩⟩)).eff.tgCalls = [] ∧
    (stripeWebhook ⟨"-1003037084693", some "price_p", some "price_g"⟩ 1000
        (fun _ => .failure) (fun _ => ⟨false, true, none⟩)
        (.verified ⟨"customer.updated", ⟨some "12345", none⟩⟩)).eff.subFetches = [] :=
  c9_unknown_kind_acknowledged _ _ _ _ _ (by decide) (by decide) (by decide)

/-- C10: the startup guards accept an environment whose premium price id is
unset with only a warning, and under that configuration the classifier sends
the absent price id to the premium label, because the absent query compares
strictly equal to the unset configured id. -/
theorem c10_missing_premium_price (e : Env)
    (h1 : jsTruthyStr e.stripeSecretKey = true)
    (h2 : jsTruthyStr e.stripeWebhookSecret = true)
    (h3 : jsTruthyStr e.telegramBotToken = true)
    (h4 : jsTruthyStr e.groupChatId = true)
    (hp : e.premiumPriceId = none) :
    ∃ cfg warns, startupGuards e = .ok (cfg, warns) ∧
      (LogEntry.mk .warn "Missing PREMIUM_PRICE_ID") ∈ warns ∧
      getTierFromPrice cfg none = "Premium Plan (€24.99/month)" := by
  refine ⟨⟨e.groupChatId.getD "", e.premiumPriceId, e.genericPriceId⟩,
    [LogEntry.mk .warn "Missing PREMIUM_PRICE_ID"] ++
      (if !(jsTruthyStr e.genericPriceId) then
        [LogEntry.mk .warn "Missing GENERIC_PRICE_ID"] else []),
    ?_, ?_, ?_⟩
  · simp [startupGuards, h1, h2, h3, h4, hp, jsTruthyStr_none]
  · simp
  · simp [getTierFromPrice, hp]

/-- Two subscription backends with the same price view give the checkout
branch the same effects and the same first price id: the branch never reads
the subscription metadata. -/
theorem fetchSubscription_priceView_congr (bk1 bk2 : String → SubFetchOutcome)
    (hpv : ∀ id, priceView (bk1 id) = priceView (bk2 id))
    (eff : Effects) (subId : Option String) :
    (fetchSubscription bk1 eff subId).1 = (fetchSubscription bk2 eff subId).1 ∧
    (fetchSubscription bk1 eff subId).2.bind SubData.firstPriceId =
      (fetchSubscription bk2 eff subId).2.bind SubData.firstPriceId := by
  unfold fetchSubscription
  split
  · have hv := hpv (subId.getD "")
    cases h1 : bk1 (subId.getD "") <;> cases h2 : bk2 (subId.getD "") <;>
      rw [h1, h2] at hv <;> simp only [priceView, Option.some.injEq,
        reduceCtorEq] at hv <;> simp [h1, h2, hv]
  · exact ⟨rfl, rfl⟩

/-- C7 counterexample: a verified initial-purchase event whose session
metadata lacks the custom field while its linked subscription carries it.
The resolution order the claim states yields the subscription identity, yet
the handler treats the identity as unresolved: it makes no Telegram call
and logs the missing-identity warning, so the result is None although not
every source is empty. -/
theorem c7_checkout_fallback_counterexample :
    specCheckoutIdentity
        (fun id => if id == "sub_1" then .found ⟨some "99", some "price_p"⟩ else .failure)
        ⟨none, some "sub_1"⟩ = some "99" ∧
    stripeWebhook ⟨"-1003037084693", some "price_p", some "price_g"⟩ 1000
        (fun id => if id == "sub_1" then .found ⟨some "99", some "price_p"⟩ else .failure)
        (fun _ => ⟨false, true, some "https://t.me/+abc"⟩)
        (.verified ⟨"checkout.session.completed", ⟨none, some "sub_1"⟩⟩) =
      ⟨200, ⟨[], ["sub_1"],
        [⟨.warn, "No telegram_id in session.metadata"⟩]⟩⟩ := by
  constructor <;> decide

/-- C7 amended: in the canonical handler the initial-purchase identity is
read solely from the session metadata custom field; the linked subscription
is fetched only for its price, and its custom field is never consulted —
two backends agreeing on prices are indistinguishable — and the identity is
unresolved (no Telegram call) whenever the session metadata field alone is
absent or empty. -/
theorem c7_checkout_identity_session_only (cfg : Config) (now : Nat)
    (oracle : TgOracle) (obj : StripeObject)
    (bk1 bk2 : String → SubFetchOutcome)
    (hpv : ∀ id, priceView (bk1 id) = priceView (bk2 id)) :
    stripeWebhook cfg now bk1 oracle
        (.verified ⟨"checkout.session.completed", obj⟩) =
      stripeWebhook cfg now bk2 oracle
        (.verified ⟨"checkout.session.completed", obj⟩) ∧
    (jsTruthyStr obj.metadataTelegramId = false →
      (stripeWebhook cfg now bk1 oracle
          (.verified ⟨"checkout.session.completed", obj⟩)).eff.tgCalls = []) := by
  obtain ⟨h1, h2⟩ := fetchSubscription_priceView_congr bk1 bk2 hpv Effects.empty obj.subscriptionId
  have hfs := fetchSubscription_fst_tgCalls bk1 Effects.empty obj.subscriptionId
  rcases hs1 : fetchSubscription bk1 Effects.empty obj.subscriptionId with ⟨e1, s1⟩
  rcases hs2 : fetchSubscription bk2 Effects.empty obj.subscriptionId with ⟨e2, s2⟩
  rw [hs1] at hfs
  rw [hs1, hs2] at h1 h2
  dsimp only at h1 h2 hfs
  constructor
  · simp only [stripeWebhook, dispatchEvent, beq_self_eq_true, if_true, hs1, hs2, h1, h2]
  · intro hid
    simp only [stripeWebhook, dispatchEvent, beq_self_eq_true, if_true, hs1, hid,
      Bool.false_eq_true, if_false, Effects.log]
    exact hfs

/-- Witness for C7 amended: two concrete backends differing only in the
subscription metadata produce identical handler results. -/
theorem c7_checkout_identity_session_only_witness :
    stripeWebhook ⟨"-1003037084693", some "price_p", some "price_g"⟩ 1000
        (fun _ => .found ⟨some "99", some "price_p"⟩)
        (fun _ => ⟨false, true, some "https://t.me/+abc"⟩)
        (.verified ⟨"checkout.session.completed", ⟨some "12345", some "sub_1"⟩⟩) =
      stripeWebhook ⟨"-1003037084693", some "price_p", some "price_g"⟩ 1000
        (fun _ => .found ⟨none, some "price_p"⟩)
        (fun _ => ⟨false, true, some "https://t.me/+abc"⟩)
        (.verified ⟨"checkout.session.completed", ⟨some "12345", some "sub_1"⟩⟩) :=
  (c7_checkout_identity_session_only _ 1000 _ ⟨some "12345", some "sub_1"⟩
    (fun _ => .found ⟨some "99", some "price_p"⟩)
    (fun _ => .found ⟨none, some "price_p"⟩)
    (fun _ => rfl)).1

/-- C8 counterexample: a verified recurring-payment event whose linked
subscription resolves the identity 55 and a premium price; the handler
resolves both into only a log line and makes zero Telegram calls, so no
membership action is driven. -/
theorem c8_invoice_no_action_counterexample :
    stripeWebhook ⟨"-1003037084693", some "price_p", some "price_g"⟩ 1000
        (fun id => if id == "sub_1" then .found ⟨some "55", some "price_p"⟩ else .failure)
        (fun _ => ⟨false, true, some "https://t.me/+abc"⟩)
        (.verified ⟨"invoice.payment_succeeded", ⟨none, some "sub_1"⟩⟩) =
      ⟨200, ⟨[], ["sub_1"],
        [⟨.info, "Renewal OK → tg:55 | Premium Plan (€24.99/month)"⟩]⟩⟩ := by
  decide

/-- C8 amended: a verified recurring-payment event invokes the identity
resolver (subscription metadata, falling back to the payment instance
metadata) and the plan classifier, but drives no membership action: it
writes one renewal log line carrying both results, makes zero Telegram
calls, and is acknowledged with status 200. -/
theorem c8_invoice_resolved_but_log_only (cfg : Config) (now : Nat)
    (backend : String → SubFetchOutcome) (oracle : TgOracle) (obj : StripeObject) :
    (stripeWebhook cfg now backend oracle
        (.verified ⟨"invoice.payment_succeeded", obj⟩)).status = 200 ∧
    (stripeWebhook cfg now backend oracle
        (.verified ⟨"invoice.payment_succeeded", obj⟩)).eff.tgCalls = [] ∧
    (LogEntry.mk .info
        ("Renewal OK → tg:" ++
          jsOrDefault
            (jsOr ((fetchSubscription backend Effects.empty obj.subscriptionId).2.bind
                SubData.metadataTelegramId)
              obj.metadataTelegramId) "-" ++
          " | " ++
          getTierFromPrice cfg
            ((fetchSubscription backend Effects.empty obj.subscriptionId).2.bind
              SubData.firstPriceId))) ∈
      (stripeWebhook cfg now backend oracle
        (.verified ⟨"invoice.payment_succeeded", obj⟩)).eff.logs := by
  have hfs := fetchSubscription_fst_tgCalls backend Effects.empty obj.subscriptionId
  rcases hsplit : fetchSubscription backend Effects.empty obj.subscriptionId with ⟨eff1, sub⟩
  rw [hsplit] at hfs
  refine ⟨rfl, ?_, ?_⟩
  · simp only [stripeWebhook, dispatchEvent, String.reduceBEq, reduceIte, hsplit, Effects.log]
    exact hfs
  · simp only [stripeWebhook, dispatchEvent, String.reduceBEq, reduceIte, hsplit, Effects.log]
    simp

/-- Witness for C10 at a concrete environment missing only the premium
price id. -/
theorem c10_missing_premium_price_witness :
    ∃ cfg warns,
      startupGuards ⟨some "sk_live_1", some "whsec_1", some "tok_1",
        some "-1003037084693", none, some "price_g"⟩ = .ok (cfg, warns) ∧
      (LogEntry.mk .warn "Missing PREMIUM_PRICE_ID") ∈ warns ∧
      getTierFromPrice cfg none = "Premium Plan (€24.99/month)" :=
  c10_missing_premium_price _ (by decide) (by decide) (by decide) (by decide) rfl

end NexusBot
